import Mathlib

/-!
Verification development for the online notarization management system
(Express/Mongoose REST API).  The definitions below are a shallow embedding
of the repository's role table, authorization gate, notarization status
workflow, signature-approval sub-flow, session submission, upload gate and
status-lookup controller.  Pure functions of the source become Lean
functions; the document store becomes an explicit record threaded through
the operations; fallible controller/service calls return `Except`.
-/

set_option autoImplicit false

namespace Notarization

/-! ## Role / permission table — `src/config/roles.js` -/

/-- Permission list of the `user` role in `allRoles` (src/config/roles.js). -/
def userPermissions : List String :=
  ["uploadDocuments", "viewNotarizationHistory", "createSession", "addUserToSession",
   "deleteUserOutOfSession", "joinSession", "getNotarizationFields", "getNotarizationServices",
   "approveSignatureByUser", "approveSignatureSessionByUser", "searchUserByEmail",
   "getSessionsByUserId", "getSessionBySessionId", "uploadSessionDocument",
   "sendSessionForNotarization", "getSessionStatus"]

/-- Permission list of the `admin` role in `allRoles` (src/config/roles.js). -/
def adminPermissions : List String :=
  ["getUsers", "manageUsers", "uploadDocuments", "viewNotarizationHistory", "manageRoles",
   "manageNotarizationFields", "manageNotarizationServices", "getAllNotarizations",
   "getDocumentCount", "getUserCount", "getDocumentsByNotaryField", "getEmployeeCount",
   "getEmployeeList", "getNotarizationFields", "getNotarizationServices", "getSessions",
   "getSessionCount", "searchUserByEmail", "createSession", "addUserToSession",
   "deleteUserOutOfSession", "joinSession", "getPaymentTotal", "getPaymentTotalByService",
   "approveSignatureByUser", "approveSignatureBySecretary", "getPaymentTotalByNotarizationField",
   "getSessionStatus", "viewNotarizationHistoryByUserId"]

/-- Permission list of the `notary` role in `allRoles` (src/config/roles.js). -/
def notaryPermissions : List String :=
  ["getDocumentsByRole", "forwardDocumentStatus", "getApproveHistory", "joinSession",
   "getSessionBySessionId", "getSessionStatus", "getSessionByRole", "forwardSessionStatus",
   "approveSignatureByNotary", "approveSignatureSessionNotary", "dashboard"]

/-- The `allRoles` object as an association list, in object-key order
(src/config/roles.js); `roleRights = new Map(Object.entries(allRoles))`. -/
def allRoles : List (String × List String) :=
  [("user", userPermissions), ("admin", adminPermissions), ("notary", notaryPermissions)]

/-- Embeds `getPermissionsByRoleName = (roleName) => roleRights.get(roleName)`
(src/config/roles.js): a lookup in the role map, `none` when the role name
is not a key. -/
def getPermissionsByRoleName (roleName : String) : Option (List String) :=
  (allRoles.find? (fun p => p.1 = roleName)).map (fun p => p.2)

/-! ## Authorization gate — §4.4 of the spec -/

/-- An authenticated caller as the auth middleware attaches it to the request:
an id and a role name. -/
structure AuthedUser where
  id : String
  role : String
  deriving DecidableEq, Repr

/-- Outcome of the authorization gate. -/
inductive AuthResult where
  | unauthorized
  | forbidden
  | granted
  deriving DecidableEq, Repr

/-- Modelled from the spec: the auth middleware (`src/middlewares/auth.js` is
not among the sources, only its unit tests and its call sites in the routers
are).  Per §4.4, the gate resolves the bearer credential to a user — a
missing/invalid/expired credential is `none` here and fails with
`UnauthorizedError` — then looks the role's permission set up in
`getPermissionsByRoleName` and checks set membership of the required action:
absence fails with `ForbiddenError`, presence lets the request proceed. -/
def authGate (credential : Option AuthedUser) (requiredRight : String) : AuthResult :=
  match credential with
  | none => .unauthorized
  | some u =>
    match getPermissionsByRoleName u.role with
    | none => .forbidden
    | some perms => if requiredRight ∈ perms then .granted else .forbidden

/-! ## Signature approval sub-flow — `src/models/requestSessionSignature.model.js` -/

/-- One half of `approvalStatus` in the `requestSessionSignature` schema:
`{ approved: { type: Boolean, default: false }, approvedAt: { type: Date, default: null } }`. -/
structure ApprovalHalf where
  approved : Bool
  approvedAt : Option Nat
  deriving DecidableEq, Repr

/-- Schema default for either half: `approved = false`, `approvedAt = null`. -/
def ApprovalHalf.default : ApprovalHalf := ⟨false, none⟩

/-- The `approvalStatus` field of the `requestSessionSignature` schema: a
secretary half and a user half. -/
structure ApprovalStatus where
  secretary : ApprovalHalf
  user : ApprovalHalf
  deriving DecidableEq, Repr

/-- The approval record as freshly created: both halves at their schema
defaults. -/
def ApprovalStatus.initial : ApprovalStatus := ⟨ApprovalHalf.default, ApprovalHalf.default⟩

/-- Modelled from the spec: `approveSignatureByUser` in the notarization
service (the service file is not among the sources; the controller at
src/controllers/notarization.controller.js:87 is its caller).  Per §4.2 it
sets the user half of `approvalStatus` to approved with a timestamp. -/
def approveSignatureByUser (now : Nat) (s : ApprovalStatus) : ApprovalStatus :=
  { s with user := ⟨true, some now⟩ }

/-- Modelled from the spec: `approveSignatureBySecretary` in the notarization
service (the service file is not among the sources; the controller at
src/controllers/notarization.controller.js:94 is its caller).  Per §4.2 it
sets the secretary half of `approvalStatus` to approved with a timestamp. -/
def approveSignatureBySecretary (now : Nat) (s : ApprovalStatus) : ApprovalStatus :=
  { s with secretary := ⟨true, some now⟩ }

/-- Modelled from the spec: the "is fully approved" check of §4.2, a pure
function of the two sub-records — both halves must have reached
`approved = true`. -/
def fullyApproved (s : ApprovalStatus) : Bool :=
  s.secretary.approved && s.user.approved

/-! ## Notarization document workflow — §4.1 of the spec -/

/-- Document workflow states of the ordered pipeline
`pending → processing → digitalSignature → completed`, with the alternate
terminal `rejected` (§4.1). -/
inductive DocStatus where
  | pending
  | processing
  | digitalSignature
  | completed
  | rejected
  deriving DecidableEq, Repr

/-- Whether a document status is terminal: `completed` and `rejected` admit no
further transitions (§4.1). -/
def DocStatus.isTerminal : DocStatus → Bool
  | .completed => true
  | .rejected => true
  | _ => false

/-- Actions a caller can issue on `forwardDocumentStatus` (§4.1). -/
inductive DocAction where
  | accept
  | reject
  deriving DecidableEq, Repr

/-- The actor roles the workflow of §4.1 distinguishes. -/
inductive WorkflowRole where
  | user
  | admin
  | notary
  | secretary
  deriving DecidableEq, Repr

/-- All workflow roles, for deciding quantification over roles. -/
def WorkflowRole.all : List WorkflowRole := [.user, .admin, .notary, .secretary]

/-- Modelled from the spec: the transition table of §4.1, a deterministic
function of (current status, action, role).  The documented transitions are:
a notary accepting a `pending` document moves it to `processing`; a secretary
confirming a `processing` document moves it to `digitalSignature`; any role
issuing `reject` on a non-terminal document moves it to `rejected`.  Every
other triple is unrecognized (`none`). -/
def transitionTable : DocStatus → DocAction → WorkflowRole → Option DocStatus
  | .pending, .accept, .notary => some .processing
  | .processing, .accept, .secretary => some .digitalSignature
  | s, .reject, _ => if s.isTerminal then none else some .rejected
  | _, .accept, _ => none

/-- Modelled from the spec: the feedback requirement of §4.1 — `reject`
requires a non-empty feedback string, other actions do not. -/
def feedbackOk : DocAction → Option String → Bool
  | .accept, _ => true
  | .reject, none => false
  | .reject, some f => f ≠ ""

/-- Whether some role is entitled to the given (status, action) transition;
used to tell a wrong-role request (`ForbiddenError`) from an action invalid
in the current state (`BadRequestError`), following §4.1's error taxonomy. -/
def someRoleCan (s : DocStatus) (a : DocAction) : Bool :=
  WorkflowRole.all.any (fun r => (transitionTable s a r).isSome)

/-- A stored document, reduced to the fields the workflow reads and writes:
its id and its workflow status (§3). -/
structure Document where
  id : String
  status : DocStatus
  deriving DecidableEq, Repr

/-- An append-only StatusTracking log entry `{documentId, status}` (§3). -/
structure StatusTracking where
  documentId : String
  status : DocStatus
  deriving DecidableEq, Repr

/-- The persistent store the workflow engine mutates: the document collection
and the StatusTracking log. -/
structure Store where
  documents : List Document
  trackings : List StatusTracking
  deriving DecidableEq, Repr

/-- Error taxonomy of §7 restricted to the errors the embedded operations
raise. -/
inductive ApiErr where
  | notFound
  | forbidden
  | badRequest
  deriving DecidableEq, Repr

/-- Looks a document up by id in the store. -/
def findDocument (db : Store) (documentId : String) : Option Document :=
  db.documents.find? (fun d => d.id == documentId)

/-- Writes the new status on the matching document and appends exactly one
StatusTracking row (§4.1 side effect). -/
def applyTransition (db : Store) (documentId : String) (next : DocStatus) : Store :=
  { documents := db.documents.map (fun d => if d.id == documentId then { d with status := next } else d),
    trackings := db.trackings ++ [⟨documentId, next⟩] }

/-- Modelled from the spec: `notarizationService.forwardDocumentStatus`
(the service file is not among the sources; its caller is the controller at
src/controllers/notarization.controller.js:65-72).  Per §4.1: look the
document up (`notFound` when the id is unknown); compute the next status from
the transition table; on a recognized triple with its feedback requirement
met, write the status, append one history row and return the updated status
with the documentId; reject with missing/empty feedback is `badRequest`; an
unrecognized triple is `forbidden` when some other role could perform it and
`badRequest` when the action is invalid for the current state.  A thrown
error leaves the store untouched, so the pre-state store is returned
alongside the error. -/
def forwardDocumentStatus (db : Store) (documentId : String) (action : DocAction)
    (role : WorkflowRole) (feedback : Option String) :
    Store × Except ApiErr (DocStatus × String) :=
  match findDocument db documentId with
  | none => (db, .error .notFound)
  | some doc =>
    match transitionTable doc.status action role with
    | some next =>
      if feedbackOk action feedback then
        (applyTransition db documentId next, .ok (next, documentId))
      else
        (db, .error .badRequest)
    | none =>
      (db, .error (if someRoleCan doc.status action then .forbidden else .badRequest))

/-! ## Document creation — src/controllers/notarization.controller.js -/

/-- A character the email regex char class `[^\s@]` accepts: anything that is
neither whitespace nor an at sign. -/
def isEmailChar (c : Char) : Bool :=
  !c.isWhitespace && c != '@'

/-- Whether the char list holds a dot that is neither its first nor its last
character — the `[^\s@]+\.[^\s@]+` shape requires a dot with at least one
character on each side. -/
def hasInteriorDot (cs : List Char) : Bool :=
  ((cs.drop 1).dropLast).contains '.'

/-- Embeds the email test of src/controllers/notarization.controller.js:8,
the regex `^[^\s@]+@[^\s@]+\.[^\s@]+$` applied to the whole string: exactly
one at sign, a non-empty local part of non-space non-at characters before it,
and after it a domain of non-space non-at characters holding an interior
dot. -/
def isValidEmail (email : String) : Bool :=
  let cs := email.toList
  let localPart := cs.takeWhile (fun c => c != '@')
  let domainPart := (cs.dropWhile (fun c => c != '@')).drop 1
  cs.count '@' == 1 && !localPart.isEmpty && localPart.all isEmailChar &&
    domainPart.all isEmailChar && hasInteriorDot domainPart

/-- Modelled from the spec: `notarizationService.createDocument` (the service
file is not among the sources; the controller at
src/controllers/notarization.controller.js:11-23 is its caller).  Per §3 a
document is created on upload in the first pipeline state `pending` and
stored; `newId` stands for the id the store mints. -/
def serviceCreateDocument (db : Store) (newId : String) : Store × Document :=
  let doc : Document := ⟨newId, .pending⟩
  ({ db with documents := db.documents ++ [doc] }, doc)

/-- Modelled from the spec: `notarizationService.createStatusTracking` (the
service file is not among the sources; the controller at
src/controllers/notarization.controller.js:20 calls it with the literal
status `pending`).  Per §3 StatusTracking is an append-only log: one row is
appended. -/
def createStatusTracking (db : Store) (documentId : String) (status : DocStatus) : Store :=
  { db with trackings := db.trackings ++ [⟨documentId, status⟩] }

/-- Embeds the `createDocument` controller
(src/controllers/notarization.controller.js:11-23): reject an invalid
requester email with BadRequest, otherwise create the document through the
service, then append one StatusTracking row with status `pending`, and
answer 201 with the document. -/
def createDocumentController (db : Store) (requesterEmail : String) (newId : String) :
    Store × Except ApiErr Document :=
  if !isValidEmail requesterEmail then
    (db, .error .badRequest)
  else
    let created := serviceCreateDocument db newId
    (createStatusTracking created.1 created.2.id .pending, .ok created.2)

/-! ## Session submission — §4.3 of the spec -/

/-- Modelled from the spec: the session status enum of §3
(`draft/active/pending-notarization/...`); `pendingNotarization` is the
submitted state `sendSessionForNotarization` moves a session to. -/
inductive SessionStatus where
  | draft
  | active
  | pendingNotarization
  deriving DecidableEq, Repr

/-- A session, reduced to the fields `sendSessionForNotarization` reads and
writes: its creator, its attached files and its status (§3). -/
structure Session where
  id : String
  createdBy : String
  files : List String
  status : SessionStatus
  deriving DecidableEq, Repr

/-- Modelled from the spec: `sessionService.sendSessionForNotarization` (the
service file is not among the sources; the route at
src/routes/v1/session.route.js:128-134 dispatches to it).  Per §4.3 and §8:
with no uploaded file it fails with BadRequest; with at least one file and a
caller other than the creator it fails with Forbidden; only the creator with
at least one file succeeds, moving the session to the submitted state. -/
def sendSessionForNotarization (s : Session) (callerId : String) :
    Except ApiErr Session :=
  if s.files.isEmpty then
    .error .badRequest
  else if callerId != s.createdBy then
    .error .forbidden
  else
    .ok { s with status := .pendingNotarization }

/-! ## Upload gate — multer config of src/routes/v1/session.route.js -/

/-- Whether `p` is an initial segment of `s`, on character lists. -/
def beginsWith : List Char → List Char → Bool
  | [], _ => true
  | _ :: _, [] => false
  | p :: ps, c :: cs => p == c && beginsWith ps cs

/-- Whether `p` occurs contiguously inside `s`, on character lists. -/
def hasSub (p : List Char) : List Char → Bool
  | [] => p.isEmpty
  | c :: cs => beginsWith p (c :: cs) || hasSub p cs

/-- The four alternatives of the `allowedFileTypes` regex
(src/routes/v1/session.route.js:15). -/
def allowedFilePatterns : List String := ["jpeg", "jpg", "png", "pdf"]

/-- Embeds `allowedFileTypes.test(s)` for `allowedFileTypes = /jpeg|jpg|png|pdf/`
(src/routes/v1/session.route.js:15-17): the regex is unanchored, so the test
succeeds exactly when the string holds one of the four alternatives as a
substring. -/
def allowedFileTypesTest (s : String) : Bool :=
  allowedFilePatterns.any (fun p => hasSub p.toList s.toList)

/-- A multipart upload file as multer hands it to the config: original name,
mime type and byte size. -/
structure UploadFile where
  originalname : String
  mimetype : String
  size : Nat
  deriving DecidableEq, Repr

/-- Splits a character list at every dot, keeping empty chunks, the way
JavaScript's `String.prototype.split('.')` does. -/
def splitOnDot : List Char → List (List Char)
  | [] => [[]]
  | c :: cs =>
    if c = '.' then [] :: splitOnDot cs
    else
      match splitOnDot cs with
      | [] => [[c]]
      | r :: rs => (c :: r) :: rs

/-- Embeds `file.originalname.split('.').pop()`
(src/routes/v1/session.route.js:17): the last dot-separated chunk of the
original name (the whole name when it holds no dot). -/
def fileExt (f : UploadFile) : String :=
  ⟨(splitOnDot f.originalname.toList).getLastD []⟩

/-- Embeds the `fileFilter` of the session upload multer config
(src/routes/v1/session.route.js:14-23): accept when both the mime type and
the extension pass the `allowedFileTypes` regex test; otherwise fail with
`ApiError(BAD_REQUEST, 'Only images and PDFs are allowed')`. -/
def sessionFileFilter (f : UploadFile) : Bool :=
  allowedFileTypesTest f.mimetype && allowedFileTypesTest (fileExt f)

/-- The boundary decision multer takes for one uploaded file: accepted and
handed to business logic, rejected by the `fileFilter` type check, or
rejected by the 5 MB `fileSize` limit (src/routes/v1/session.route.js:11-24).
Either rejection happens before any handler runs. -/
inductive UploadDecision where
  | accepted
  | rejectedType
  | rejectedSize
  deriving DecidableEq, Repr

/-- Embeds the multer gate of the session router
(src/routes/v1/session.route.js:11-24): the `fileFilter` type check and the
`limits.fileSize = 5 * 1024 * 1024` bound, applied before the route handler
runs. -/
def sessionUploadGate (f : UploadFile) : UploadDecision :=
  if !sessionFileFilter f then
    .rejectedType
  else if 5 * 1024 * 1024 < f.size then
    .rejectedSize
  else
    .accepted

/-! ## Route tables — src/routes/v1/session.route.js and the notarization router -/

/-- A declared route: HTTP method, path, and the required permission of its
`auth(...)` middleware — `none` when the route mounts no auth middleware. -/
structure Route where
  method : String
  path : String
  authRight : Option String
  deriving DecidableEq, Repr

/-- The notarization router's routes in declaration order (notarization
router source, lines 52-84): every route mounts `auth(<right>)` except
`GET /getStatusById/:documentId`, declared bare at line 70. -/
def notarizationRoutes : List Route :=
  [⟨"post", "/upload-files", some "uploadDocuments"⟩,
   ⟨"get", "/history", some "viewNotarizationHistory"⟩,
   ⟨"get", "/getStatusById/:documentId", none⟩,
   ⟨"get", "/getDocumentByRole", some "getDocumentsByRole"⟩,
   ⟨"patch", "/forwardDocumentStatus/:documentId", some "forwardDocumentStatus"⟩,
   ⟨"get", "/getAllNotarization", some "getAllNotarizations"⟩,
   ⟨"get", "/getApproveHistory", some "getApproveHistory"⟩]

/-- The session router's routes in declaration order
(src/routes/v1/session.route.js:75-134): every route mounts `auth(<right>)`. -/
def sessionRoutes : List Route :=
  [⟨"post", "/createSession", some "createSession"⟩,
   ⟨"patch", "/addUser/:sessionId", some "addUserToSession"⟩,
   ⟨"patch", "/deleteUser/:sessionId", some "deleteUserOutOfSession"⟩,
   ⟨"post", "/joinSession/:sessionId", some "joinSession"⟩,
   ⟨"get", "/getAllSessions", some "getSessions"⟩,
   ⟨"get", "/getSessionsByDate", some "getSessions"⟩,
   ⟨"get", "/getSessionsByMonth", some "getSessions"⟩,
   ⟨"get", "/getActiveSessions", some "getSessions"⟩,
   ⟨"get", "/getSessionsByUserId", some "getSessionsByUserId"⟩,
   ⟨"get", "/getSessionBySessionId/:sessionId", some "getSessionBySessionId"⟩,
   ⟨"post", "/upload-session-document/:sessionId", some "uploadSessionDocument"⟩,
   ⟨"post", "/send-session-for-notarization/:sessionId", some "sendSessionForNotarization"⟩]

/-- All routes of the two routers. -/
def allRoutes : List Route := notarizationRoutes ++ sessionRoutes

/-! ## Status lookup controller — src/controllers/notarization.controller.js:44-57 -/

/-- Modelled after `mongoose.Types.ObjectId.isValid` on a string route param
(an external library call): a 24-character hexadecimal string, or any
12-character string. -/
def isValidObjectId (s : String) : Bool :=
  s.length == 12 ||
    (s.length == 24 && s.toList.all (fun c =>
      c.isDigit || ('a' ≤ c && c ≤ 'f') || ('A' ≤ c && c ≤ 'F')))

/-- The body `notarizationService.getDocumentStatus` answers for a document:
its id and its current workflow status. -/
structure DocStatusInfo where
  documentId : String
  status : DocStatus
  deriving DecidableEq, Repr

/-- The HTTP responses the status-lookup route can express. -/
inductive StatusLookupResponse where
  | ok (body : DocStatusInfo)
  | notFound
  | badRequest
  | serverError
  deriving DecidableEq, Repr

/-- Embeds the `getDocumentStatus` controller
(src/controllers/notarization.controller.js:44-57): when the documentId is
not a well-formed ObjectId, or the service lookup yields nothing, answer
404 Not Found; otherwise answer 200 with the status object.  `lookup` stands
for `notarizationService.getDocumentStatus` (the service file is not among
the sources), a pure read of the store. -/
def getDocumentStatusController (lookup : String → Option DocStatusInfo)
    (documentId : String) : StatusLookupResponse :=
  if !isValidObjectId documentId then
    .notFound
  else
    match lookup documentId with
    | none => .notFound
    | some info => .ok info

/-! ## Theorems -/

/-- Case analysis of the role-map lookup: the three keys of `allRoles`, in
order, and `none` for every other role name. -/
theorem getPermissionsByRoleName_eq (roleName : String) :
    getPermissionsByRoleName roleName =
      if roleName = "user" then some userPermissions
      else if roleName = "admin" then some adminPermissions
      else if roleName = "notary" then some notaryPermissions
      else none := by
  simp only [getPermissionsByRoleName, allRoles, List.find?]
  by_cases h1 : roleName = "user"
  · simp [h1]
  · by_cases h2 : roleName = "admin"
    · simp [h1, h2, Ne.symm h1]
    · by_cases h3 : roleName = "notary"
      · simp [h1, h2, h3, Ne.symm h1, Ne.symm h2]
      · simp [h1, h2, h3, Ne.symm h1, Ne.symm h2, Ne.symm h3]

/-- C6: requests through the authorization gate: a missing/invalid/expired
credential fails with UnauthorizedError; a resolved user whose role's
permission set does not contain the required action (or whose role has no
permission set at all) fails with ForbiddenError; a user whose permission
set contains the action proceeds to the handler. -/
theorem authGate_spec (cred : Option AuthedUser) (right : String) :
    (cred = none → authGate cred right = .unauthorized)
    ∧ (∀ u : AuthedUser, cred = some u → getPermissionsByRoleName u.role = none →
        authGate cred right = .forbidden)
    ∧ (∀ (u : AuthedUser) (perms : List String), cred = some u →
        getPermissionsByRoleName u.role = some perms →
        (right ∈ perms → authGate cred right = .granted)
        ∧ (right ∉ perms → authGate cred right = .forbidden)) := by
  refine ⟨?_, ?_, ?_⟩
  · rintro rfl; rfl
  · rintro u rfl h
    simp [authGate, h]
  · rintro u perms rfl h
    constructor
    · intro hm
      simp [authGate, h, hm]
    · intro hm
      simp [authGate, h, hm]

/-- Witness for `authGate_spec` at concrete inputs: no credential is
unauthorized; a `secretary` caller (a role with no permission set) is
forbidden; a `notary` caller holds `forwardDocumentStatus` and proceeds; a
`user` caller does not hold it and is forbidden. -/
theorem authGate_spec_witness :
    authGate none "forwardDocumentStatus" = .unauthorized
    ∧ authGate (some ⟨"u1", "secretary"⟩) "forwardDocumentStatus" = .forbidden
    ∧ authGate (some ⟨"u1", "notary"⟩) "forwardDocumentStatus" = .granted
    ∧ authGate (some ⟨"u1", "user"⟩) "forwardDocumentStatus" = .forbidden :=
  ⟨(authGate_spec none "forwardDocumentStatus").1 rfl,
   (authGate_spec (some ⟨"u1", "secretary"⟩) "forwardDocumentStatus").2.1
     ⟨"u1", "secretary"⟩ rfl (by rw [getPermissionsByRoleName_eq] ; decide),
   ((authGate_spec (some ⟨"u1", "notary"⟩) "forwardDocumentStatus").2.2
     ⟨"u1", "notary"⟩ notaryPermissions rfl
     (by rw [getPermissionsByRoleName_eq] ; decide)).1 (by decide),
   ((authGate_spec (some ⟨"u1", "user"⟩) "forwardDocumentStatus").2.2
     ⟨"u1", "user"⟩ userPermissions rfl
     (by rw [getPermissionsByRoleName_eq] ; decide)).2 (by decide)⟩

/-- C9: in the static role table the permission `forwardDocumentStatus` is
held exactly by the `notary` role; no `secretary` role exists at all; hence
every caller the auth gate lets through for `forwardDocumentStatus` has role
`notary`. -/
theorem forwardDocumentStatus_notary_only :
    (∀ (roleName : String) (perms : List String),
        getPermissionsByRoleName roleName = some perms →
        ("forwardDocumentStatus" ∈ perms ↔ roleName = "notary"))
    ∧ getPermissionsByRoleName "secretary" = none
    ∧ (∀ u : AuthedUser, authGate (some u) "forwardDocumentStatus" = .granted →
        u.role = "notary") := by
  have hmain : ∀ (roleName : String) (perms : List String),
      getPermissionsByRoleName roleName = some perms →
      ("forwardDocumentStatus" ∈ perms ↔ roleName = "notary") := by
    intro roleName perms h
    rw [getPermissionsByRoleName_eq] at h
    split_ifs at h with h1 h2 h3
    · cases h
      subst h1
      constructor
      · intro hm
        exact absurd hm (by decide)
      · intro hr
        exact absurd hr (by decide)
    · cases h
      subst h2
      constructor
      · intro hm
        exact absurd hm (by decide)
      · intro hr
        exact absurd hr (by decide)
    · cases h
      subst h3
      decide
  refine ⟨hmain, by rw [getPermissionsByRoleName_eq] ; decide, ?_⟩
  intro u h
  cases hp : getPermissionsByRoleName u.role with
  | none => simp [authGate, hp] at h
  | some perms =>
    by_cases hm : "forwardDocumentStatus" ∈ perms
    · exact (hmain u.role perms hp).mp hm
    · simp [authGate, hp, hm] at h

/-- Witness for `forwardDocumentStatus_notary_only` at concrete inputs: the
notary permission list characterization, the missing `secretary` key, and a
concrete granted notary caller. -/
theorem forwardDocumentStatus_notary_only_witness :
    ("forwardDocumentStatus" ∈ notaryPermissions ↔ "notary" = "notary")
    ∧ getPermissionsByRoleName "secretary" = none
    ∧ (⟨"u9", "notary"⟩ : AuthedUser).role = "notary" :=
  ⟨forwardDocumentStatus_notary_only.1 "notary" notaryPermissions
     (by rw [getPermissionsByRoleName_eq] ; decide),
   forwardDocumentStatus_notary_only.2.1,
   forwardDocumentStatus_notary_only.2.2 ⟨"u9", "notary"⟩
     (by simp [authGate, getPermissionsByRoleName_eq] ; decide)⟩

/-- C3: approving by user then by secretary, or in the reverse order, both
yield a fully-approved record; either single approval applied to the freshly
created record (the other half still at its `approved = false` default)
leaves it not fully approved; and the fully-approved check is a commutative
pure function of the two sub-records. -/
theorem signature_approval_commutative (t₁ t₂ : Nat) (s : ApprovalStatus) :
    fullyApproved (approveSignatureBySecretary t₂ (approveSignatureByUser t₁ s)) = true
    ∧ fullyApproved (approveSignatureByUser t₁ (approveSignatureBySecretary t₂ s)) = true
    ∧ fullyApproved (approveSignatureByUser t₁ ApprovalStatus.initial) = false
    ∧ fullyApproved (approveSignatureBySecretary t₂ ApprovalStatus.initial) = false
    ∧ fullyApproved (approveSignatureBySecretary t₂ (approveSignatureByUser t₁ s))
        = fullyApproved (approveSignatureByUser t₁ (approveSignatureBySecretary t₂ s)) := by
  simp [fullyApproved, approveSignatureByUser, approveSignatureBySecretary,
    ApprovalStatus.initial, ApprovalHalf.default]

/-- C4: `sendSessionForNotarization` with zero uploaded files fails with
BadRequest and leaves the session unchanged; with at least one file and a
caller other than the creator it fails with Forbidden; only the creator with
at least one file succeeds, moving the session to the submitted state. -/
theorem sendSessionForNotarization_spec (s : Session) (callerId : String) :
    (s.files = [] → sendSessionForNotarization s callerId = .error .badRequest)
    ∧ (s.files ≠ [] → callerId ≠ s.createdBy →
        sendSessionForNotarization s callerId = .error .forbidden)
    ∧ (s.files ≠ [] → callerId = s.createdBy →
        sendSessionForNotarization s callerId =
          .ok { s with status := .pendingNotarization }) := by
  refine ⟨?_, ?_, ?_⟩
  · intro h
    simp [sendSessionForNotarization, h]
  · intro h1 h2
    simp [sendSessionForNotarization, List.isEmpty_iff, h1, h2]
  · intro h1 h2
    simp [sendSessionForNotarization, List.isEmpty_iff, h1, h2]

/-- Witness for `sendSessionForNotarization_spec` at concrete sessions: no
files is BadRequest, a non-creator caller is Forbidden, the creator with one
file succeeds into the submitted state. -/
theorem sendSessionForNotarization_spec_witness :
    sendSessionForNotarization ⟨"s1", "creator", [], .draft⟩ "creator" = .error .badRequest
    ∧ sendSessionForNotarization ⟨"s1", "creator", ["contract.pdf"], .draft⟩ "other"
        = .error .forbidden
    ∧ sendSessionForNotarization ⟨"s1", "creator", ["contract.pdf"], .draft⟩ "creator"
        = .ok ⟨"s1", "creator", ["contract.pdf"], .pendingNotarization⟩ :=
  ⟨(sendSessionForNotarization_spec ⟨"s1", "creator", [], .draft⟩ "creator").1 rfl,
   (sendSessionForNotarization_spec ⟨"s1", "creator", ["contract.pdf"], .draft⟩ "other").2.1
     (by simp) (by decide),
   (sendSessionForNotarization_spec ⟨"s1", "creator", ["contract.pdf"], .draft⟩ "creator").2.2
     (by simp) rfl⟩

/-- C5: a document created through the `createDocument` controller starts in
status `pending`, and creation appends exactly one StatusTracking row with
status `pending` for the new document's id. -/
theorem createDocument_initial_pending (db : Store) (requesterEmail newId : String)
    (h : isValidEmail requesterEmail = true) :
    createDocumentController db requesterEmail newId =
      (⟨db.documents ++ [⟨newId, DocStatus.pending⟩],
        db.trackings ++ [⟨newId, DocStatus.pending⟩]⟩,
       .ok ⟨newId, DocStatus.pending⟩) := by
  simp [createDocumentController, h, serviceCreateDocument, createStatusTracking]

/-- Witness for `createDocument_initial_pending`: creating a document with a
valid requester email on an empty store yields the pending document and one
pending tracking row. -/
theorem createDocument_initial_pending_witness :
    createDocumentController ⟨[], []⟩ "a@b.c" "doc1" =
      (⟨[⟨"doc1", DocStatus.pending⟩], [⟨"doc1", DocStatus.pending⟩]⟩,
       .ok ⟨"doc1", DocStatus.pending⟩) :=
  createDocument_initial_pending ⟨[], []⟩ "a@b.c" "doc1" (by decide)

/-- C8: every route of the notarization and session routers mounts the auth
middleware except `GET /getStatusById/:documentId`, which alone carries no
auth requirement; and an unauthenticated request through the gate is always
answered 401 Unauthorized, whatever the required right. -/
theorem routes_auth_spec :
    (∀ r ∈ allRoutes, r.authRight = none ↔ r.path = "/getStatusById/:documentId")
    ∧ (∀ right : String, authGate none right = .unauthorized) := by
  constructor
  · decide
  · intro right
    rfl

/-- Witness for `routes_auth_spec` at concrete inputs: the createSession
route requires auth, and an unauthenticated createSession request is
unauthorized. -/
theorem routes_auth_spec_witness :
    ((Route.mk "post" "/createSession" (some "createSession")).authRight = none
      ↔ (Route.mk "post" "/createSession" (some "createSession")).path
          = "/getStatusById/:documentId")
    ∧ authGate none "createSession" = .unauthorized :=
  ⟨routes_auth_spec.1 (Route.mk "post" "/createSession" (some "createSession")) (by decide),
   routes_auth_spec.2 "createSession"⟩

/-- C10: the status-lookup controller answers 404 Not Found for every
documentId that is no well-formed ObjectId and for every well-formed id the
service holds no status for, answers 200 with the status object otherwise,
and these two branches are exhaustive — no input reaches a 400 or 500
response. -/
theorem getDocumentStatus_exhaustive (lookup : String → Option DocStatusInfo)
    (documentId : String) :
    (isValidObjectId documentId = false →
      getDocumentStatusController lookup documentId = .notFound)
    ∧ (lookup documentId = none →
        getDocumentStatusController lookup documentId = .notFound)
    ∧ (∀ info, isValidObjectId documentId = true → lookup documentId = some info →
        getDocumentStatusController lookup documentId = .ok info)
    ∧ (getDocumentStatusController lookup documentId = .notFound
        ∨ ∃ info, getDocumentStatusController lookup documentId = .ok info) := by
  by_cases hv : isValidObjectId documentId
  · cases hl : lookup documentId with
    | none => simp [getDocumentStatusController, hv, hl]
    | some info => simp [getDocumentStatusController, hv, hl]
  · simp [getDocumentStatusController, hv]

/-- Witness for `getDocumentStatus_exhaustive` at concrete inputs: a
malformed id yields 404, a stored 24-hex id yields 200 with its status. -/
theorem getDocumentStatus_exhaustive_witness :
    getDocumentStatusController (fun _ => none) "nope" = .notFound
    ∧ getDocumentStatusController
        (fun s => if s = "aaaaaaaaaaaaaaaaaaaaaaaa"
          then some ⟨"aaaaaaaaaaaaaaaaaaaaaaaa", .pending⟩ else none)
        "aaaaaaaaaaaaaaaaaaaaaaaa"
        = .ok ⟨"aaaaaaaaaaaaaaaaaaaaaaaa", .pending⟩ :=
  ⟨(getDocumentStatus_exhaustive (fun _ => none) "nope").1 (by decide),
   (getDocumentStatus_exhaustive _ "aaaaaaaaaaaaaaaaaaaaaaaa").2.2.1
     ⟨"aaaaaaaaaaaaaaaaaaaaaaaa", .pending⟩ (by decide) (by simp)⟩

/-- Writing a status on the document with the given id commutes with looking
that id up: the lookup after the write answers the looked-up document with
the new status. -/
theorem find_map_set_status (l : List Document) (documentId : String) (next : DocStatus) :
    (l.map (fun d => if d.id == documentId then { d with status := next } else d)).find?
        (fun d => d.id == documentId)
      = (l.find? (fun d => d.id == documentId)).map
          (fun d => { d with status := next }) := by
  induction l with
  | nil => rfl
  | cons d rest ih =>
    by_cases h : (d.id == documentId) = true
    · rw [List.map_cons, if_pos h]
      rw [List.find?_cons_of_pos _ (by exact h),
        List.find?_cons_of_pos (p := fun d : Document => d.id == documentId) _ h]
      rfl
    · rw [List.map_cons, if_neg h]
      rw [List.find?_cons_of_neg _ (by exact h),
        List.find?_cons_of_neg (p := fun d : Document => d.id == documentId) _ h, ih]

/-- C1: on an existing document, every (current status, action, role) triple
the transition table recognizes — its feedback requirement met — moves the
document to exactly the table's next status, appends exactly one
StatusTracking row, and answers the updated status with the documentId. -/
theorem forwardDocumentStatus_valid_triple (db : Store) (documentId : String)
    (action : DocAction) (role : WorkflowRole) (feedback : Option String)
    (doc : Document) (next : DocStatus)
    (hfind : findDocument db documentId = some doc)
    (htab : transitionTable doc.status action role = some next)
    (hfb : feedbackOk action feedback = true) :
    forwardDocumentStatus db documentId action role feedback =
      (applyTransition db documentId next, .ok (next, documentId))
    ∧ (applyTransition db documentId next).trackings
        = db.trackings ++ [⟨documentId, next⟩]
    ∧ findDocument (applyTransition db documentId next) documentId
        = some { doc with status := next } := by
  refine ⟨?_, rfl, ?_⟩
  · simp [forwardDocumentStatus, hfind, htab, hfb]
  · have hcomm : findDocument (applyTransition db documentId next) documentId
        = (findDocument db documentId).map (fun d => { d with status := next }) := by
      unfold findDocument applyTransition
      exact find_map_set_status db.documents documentId next
    rw [hcomm, hfind]
    rfl

/-- Witness for `forwardDocumentStatus_valid_triple`: a notary accepting a
pending document on a one-document store moves it to processing and appends
the one processing row. -/
theorem forwardDocumentStatus_valid_triple_witness :
    forwardDocumentStatus ⟨[⟨"d1", DocStatus.pending⟩], []⟩ "d1" .accept .notary none
      = (applyTransition ⟨[⟨"d1", DocStatus.pending⟩], []⟩ "d1" .processing,
         .ok (.processing, "d1"))
    ∧ (applyTransition ⟨[⟨"d1", DocStatus.pending⟩], []⟩ "d1" .processing).trackings
        = ([] : List StatusTracking) ++ [⟨"d1", .processing⟩]
    ∧ findDocument (applyTransition ⟨[⟨"d1", DocStatus.pending⟩], []⟩ "d1" .processing) "d1"
        = some ⟨"d1", .processing⟩ :=
  forwardDocumentStatus_valid_triple ⟨[⟨"d1", DocStatus.pending⟩], []⟩ "d1"
    .accept .notary none ⟨"d1", DocStatus.pending⟩ .processing rfl rfl rfl

/-- C2: on every triple the transition table does not recognize,
`forwardDocumentStatus` answers the untouched pre-state store — the status
unchanged, no StatusTracking row appended — and fails with NotFoundError
when the documentId is unknown, ForbiddenError when some other role is
entitled to the transition the caller's role lacks, and BadRequestError when
the action is invalid for the current state or the required feedback is
missing or empty. -/
theorem forwardDocumentStatus_invalid_triple (db : Store) (documentId : String)
    (action : DocAction) (role : WorkflowRole) (feedback : Option String) :
    (findDocument db documentId = none →
      forwardDocumentStatus db documentId action role feedback = (db, .error .notFound))
    ∧ (∀ doc, findDocument db documentId = some doc →
        transitionTable doc.status action role = none →
        someRoleCan doc.status action = true →
        forwardDocumentStatus db documentId action role feedback = (db, .error .forbidden))
    ∧ (∀ doc, findDocument db documentId = some doc →
        transitionTable doc.status action role = none →
        someRoleCan doc.status action = false →
        forwardDocumentStatus db documentId action role feedback = (db, .error .badRequest))
    ∧ (∀ doc next, findDocument db documentId = some doc →
        transitionTable doc.status action role = some next →
        feedbackOk action feedback = false →
        forwardDocumentStatus db documentId action role feedback
          = (db, .error .badRequest)) := by
  refine ⟨?_, ?_, ?_, ?_⟩
  · intro h
    simp [forwardDocumentStatus, h]
  · intro doc hfind htab hsome
    simp [forwardDocumentStatus, hfind, htab, hsome]
  · intro doc hfind htab hsome
    simp [forwardDocumentStatus, hfind, htab, hsome]
  · intro doc next hfind htab hfb
    simp [forwardDocumentStatus, hfind, htab, hfb]

/-- Witness for `forwardDocumentStatus_invalid_triple` at concrete inputs:
an unknown id is NotFound; a user accepting a pending document (a transition
a notary holds) is Forbidden; accepting a completed document (no role can)
is BadRequest; rejecting without feedback is BadRequest.  Every branch
returns the untouched store. -/
theorem forwardDocumentStatus_invalid_triple_witness :
    forwardDocumentStatus ⟨[], []⟩ "ghost" .accept .notary none
      = (⟨[], []⟩, .error .notFound)
    ∧ forwardDocumentStatus ⟨[⟨"d1", DocStatus.pending⟩], []⟩ "d1" .accept .user none
        = (⟨[⟨"d1", DocStatus.pending⟩], []⟩, .error .forbidden)
    ∧ forwardDocumentStatus ⟨[⟨"d2", DocStatus.completed⟩], []⟩ "d2" .accept .notary none
        = (⟨[⟨"d2", DocStatus.completed⟩], []⟩, .error .badRequest)
    ∧ forwardDocumentStatus ⟨[⟨"d3", DocStatus.pending⟩], []⟩ "d3" .reject .notary none
        = (⟨[⟨"d3", DocStatus.pending⟩], []⟩, .error .badRequest) :=
  ⟨(forwardDocumentStatus_invalid_triple ⟨[], []⟩ "ghost" .accept .notary none).1 rfl,
   (forwardDocumentStatus_invalid_triple ⟨[⟨"d1", DocStatus.pending⟩], []⟩ "d1"
      .accept .user none).2.1 ⟨"d1", DocStatus.pending⟩ rfl rfl rfl,
   (forwardDocumentStatus_invalid_triple ⟨[⟨"d2", DocStatus.completed⟩], []⟩ "d2"
      .accept .notary none).2.2.1 ⟨"d2", DocStatus.completed⟩ rfl rfl rfl,
   (forwardDocumentStatus_invalid_triple ⟨[⟨"d3", DocStatus.pending⟩], []⟩ "d3"
      .reject .notary none).2.2.2 ⟨"d3", DocStatus.pending⟩ .rejected rfl rfl rfl⟩

/-- Specifies `beginsWith`: it succeeds exactly on initial segments. -/
theorem beginsWith_iff (p s : List Char) :
    beginsWith p s = true ↔ ∃ t, s = p ++ t := by
  induction p generalizing s with
  | nil =>
    simp [beginsWith]
  | cons a ps ih =>
    cases s with
    | nil =>
      simp [beginsWith]
    | cons c cs =>
      rw [show beginsWith (a :: ps) (c :: cs) = (a == c && beginsWith ps cs) from rfl]
      rw [Bool.and_eq_true, beq_iff_eq, ih]
      constructor
      · rintro ⟨rfl, t, rfl⟩
        exact ⟨t, rfl⟩
      · rintro ⟨t, h⟩
        injection h with h1 h2
        exact ⟨h1.symm, t, h2⟩

/-- Specifies `hasSub`: it succeeds exactly when the pattern occurs as a
contiguous block. -/
theorem hasSub_iff (p s : List Char) :
    hasSub p s = true ↔ ∃ a b, s = a ++ p ++ b := by
  induction s with
  | nil =>
    rw [show hasSub p [] = p.isEmpty from rfl]
    constructor
    · intro h
      have hp : p = [] := by
        cases p with
        | nil => rfl
        | cons x xs => simp [List.isEmpty] at h
      exact ⟨[], [], by simp [hp]⟩
    · rintro ⟨a, b, h⟩
      rcases List.append_eq_nil.mp h.symm with ⟨h1, h2⟩
      rcases List.append_eq_nil.mp h1 with ⟨h3, hp⟩
      subst hp
      rfl
  | cons c cs ih =>
    rw [show hasSub p (c :: cs) = (beginsWith p (c :: cs) || hasSub p cs) from rfl]
    rw [Bool.or_eq_true, beginsWith_iff, ih]
    constructor
    · rintro (⟨t, ht⟩ | ⟨a, b, rfl⟩)
      · exact ⟨[], t, by simpa using ht⟩
      · exact ⟨c :: a, b, rfl⟩
    · rintro ⟨a, b, h⟩
      cases a with
      | nil =>
        left
        exact ⟨b, by simpa using h⟩
      | cons a0 as =>
        right
        rw [List.cons_append, List.cons_append] at h
        injection h with h1 h2
        exact ⟨as, b, h2⟩

/-- Specifies the embedded regex test: `/jpeg|jpg|png|pdf/.test(s)` succeeds
exactly when one of the four patterns occurs inside `s`. -/
theorem allowedFileTypesTest_iff (s : String) :
    allowedFileTypesTest s = true ↔
      ∃ p ∈ allowedFilePatterns, ∃ a b, s.toList = a ++ p.toList ++ b := by
  simp only [allowedFileTypesTest, List.any_eq_true, hasSub_iff]

/-- C7 counterexample: the upload gate accepts a small file whose dot
extension `fakepdf` is none of jpeg, jpg, png, pdf — the unanchored regex
test only asks for a substring — so the claim that every file of a
non-allowed extension is rejected at the boundary is false as stated. -/
theorem sessionUploadGate_counterexample :
    sessionUploadGate ⟨"contract.fakepdf", "application/pdf", 1024⟩ = .accepted
    ∧ fileExt ⟨"contract.fakepdf", "application/pdf", 1024⟩ = "fakepdf"
    ∧ "fakepdf" ∉ allowedFilePatterns := by
  refine ⟨by decide, by decide, by decide⟩

/-- C7 amended: the session upload gate accepts a multipart file exactly when
its size is within the 5 MB limit and both its mime type and its dot
extension hold one of jpeg, jpg, png, pdf as a substring; every other file is
rejected at the boundary before any business logic runs. -/
theorem sessionUploadGate_accepted_iff (f : UploadFile) :
    sessionUploadGate f = .accepted ↔
      f.size ≤ 5 * 1024 * 1024
      ∧ (∃ p ∈ allowedFilePatterns, ∃ a b, f.mimetype.toList = a ++ p.toList ++ b)
      ∧ (∃ p ∈ allowedFilePatterns, ∃ a b, (fileExt f).toList = a ++ p.toList ++ b) := by
  rw [← allowedFileTypesTest_iff, ← allowedFileTypesTest_iff]
  constructor
  · intro hacc
    by_cases h1 : sessionFileFilter f
    · by_cases h2 : 5 * 1024 * 1024 < f.size
      · simp [sessionUploadGate, h1, h2] at hacc
      · have hboth := h1
        unfold sessionFileFilter at hboth
        rw [Bool.and_eq_true] at hboth
        exact ⟨Nat.le_of_not_lt h2, hboth.1, hboth.2⟩
    · simp [sessionUploadGate, h1] at hacc
  · rintro ⟨hsize, hmime, hext⟩
    have h1 : sessionFileFilter f = true := by
      unfold sessionFileFilter
      rw [Bool.and_eq_true]
      exact ⟨hmime, hext⟩
    simp [sessionUploadGate, h1, Nat.not_lt.mpr hsize]

end Notarization
